import Mathlib

/-!
Shallow embedding of the core of the LoopMind mobile client:
the payload normalizer, status classifier, backend gateway and
generation-orchestrator polling loop, translated from the
TypeScript sources (`src/services/api.ts` service module and the
root `App` component).

Machine conventions used throughout:
* TypeScript `undefined?` optional fields become `Option` fields.
* `Date.now()` and parsed `new Date(s).getTime()` values are epoch
  milliseconds, modelled as `Int` parameters; the `created_at` wire
  field is an ISO string in the source and is modelled here by its
  parsed epoch-millisecond value.
* JavaScript `??` becomes `Option.getD` / `Option.orElse`.
* Network effects are modelled by an explicit outcome value
  (`NetOutcome`): the response arrives after some delay with a JSON
  body that parses (`some`) or fails to parse (`none`), or the
  transport fails.  `fetch` racing a rejection timer
  (`fetchWithTimeout`) becomes a comparison of the delay of the outcome
  against the timeout bound.
-/

namespace LoopMind

/-! ### Domain types (`src/types/index.ts`) -/

inductive Depth
  | beginner
  | intermediate
  | advanced
deriving DecidableEq, Repr

inductive TopicStatus
  | ready
  | generating
deriving DecidableEq, Repr

structure QuizOption where
  id : String
  text : String
deriving DecidableEq, Repr

/-- The `Card` union, discriminated by `card_type` in the source. -/
inductive Card
  | image (id imageUrl caption hook : String) (credit : Option String)
  | quiz (id question : String) (options : List QuizOption)
      (correctOptionId explanation : String)
  | flashcard (id front back : String) (hint : Option String)
deriving DecidableEq, Repr

/-- Frontend `Topic`.  The `stuck` field is the extra derived flag the
service function `mapBackendTopic` attaches (absent on placeholders, which in
JS leaves it `undefined`, i.e. `false` here). -/
structure Topic where
  id : String
  title : String
  emoji : String
  color : String
  status : TopicStatus
  depth : Depth
  cardCount : Nat
  cards : List Card
  stuck : Bool
deriving DecidableEq, Repr

/-! ### Backend wire records -/

/-- Nested `quiz` object of a backend ALU record. -/
structure BackendQuiz where
  question : Option String
  choices : Option (List String)
  answer_index : Option Nat
  explanation : Option String
deriving DecidableEq, Repr

/-- The all-absent quiz object, i.e. the `{}` default of
`alu.quiz ?? {}` in the source. -/
def BackendQuiz.empty : BackendQuiz :=
  ⟨none, none, none, none⟩

/-- Backend ALU (card) record.  `flashcard` is a JS object used as a
single-entry mapping; it is modelled by its `Object.entries` list in
insertion order.  Both discriminator aliases (`post_type`,
`card_type`) are optional, as in the duck-typed wire payload. -/
structure BackendALU where
  alu_id : String
  post_type : Option String
  card_type : Option String
  image_url : Option String
  caption : Option String
  hook : Option String
  credit : Option String
  micro_explanation : Option (List String)
  quiz : Option BackendQuiz
  question : Option String
  explanation : Option String
  flashcard : Option (List (String × String))
  front : Option String
  back : Option String
  hint : Option String
deriving DecidableEq, Repr

/-- Backend topic record.  `created_at` is modelled by its parsed
epoch-millisecond value (see module header). -/
structure BackendTopicItem where
  node_id : String
  title : Option String
  icon : Option String
  status : Option String
  card_count : Option Nat
  created_at : Option Int
deriving DecidableEq, Repr

/-! ### Service module constants and helpers (`api.ts`) -/

def USER_ID : String := "u1"

def TOPIC_COLORS : List String :=
  ["#6C63FF", "#FF6B6B", "#F7B731", "#26de81",
   "#FC5C7D", "#45B7D1", "#F78FB3", "#7158E2"]

def TOPIC_EMOJIS : List String :=
  ["🧠", "📘", "🔬", "⚡", "🎓", "💡", "🌟", "🚀"]

def pickColor (index : Nat) : String :=
  TOPIC_COLORS.getD (index % TOPIC_COLORS.length) ""

def pickEmoji (index : Nat) : String :=
  TOPIC_EMOJIS.getD (index % TOPIC_EMOJIS.length) ""

/-! ### Status classifier -/

/-- Function `isReadyStatus` from `api.ts`: falsy (absent or empty) status is
not ready; otherwise lowercase, trim, and test membership in the
fixed synonym list. -/
def isReadyStatus (status : Option String) : Bool :=
  match status with
  | none => false
  | some st =>
    if st = "" then false
    else
      let s := st.toLower.trim
      ["ready", "completed", "done", "complete", "finished",
       "images_pending"].contains s

/-- Function `isStuckGenerating` from `api.ts`, with `Date.now()` passed in as
`now` (epoch ms). -/
def isStuckGenerating (now : Int) (item : BackendTopicItem) : Bool :=
  if isReadyStatus item.status then false
  else if item.card_count.getD 0 > 0 then false
  else
    match item.created_at with
    | none => false
    | some createdMs =>
      let ageMs := now - createdMs
      decide (ageMs > 10 * 60 * 1000)

/-! ### Payload normalizer -/

/-- Local `const postType = alu.post_type ?? alu.card_type`. -/
def postTypeOf (alu : BackendALU) : Option String :=
  alu.post_type.orElse fun _ => alu.card_type

/-- Function `mapALUToCard` from `api.ts`.  The JS `switch` on the string
discriminator is rendered as a chain of equality tests; the default
branch logs a diagnostic and yields `null` (`none`). -/
def mapALUToCard (alu : BackendALU) : Option Card :=
  let baseId := alu.alu_id
  let postType := postTypeOf alu
  if postType = some "image" then
    let caption := alu.caption.getD
      (match alu.micro_explanation with
       | some fragments => String.intercalate " " fragments
       | none => "")
    some (.image baseId (alu.image_url.getD "") caption
      (alu.hook.getD "") alu.credit)
  else if postType = some "quiz" then
    let quiz := alu.quiz.getD BackendQuiz.empty
    let choices := quiz.choices.getD []
    let options := choices.mapIdx fun i text => QuizOption.mk (toString i) text
    some (.quiz baseId (quiz.question.getD (alu.question.getD ""))
      options (toString (quiz.answer_index.getD 0))
      (quiz.explanation.getD (alu.explanation.getD "")))
  else if postType = some "flashcard" then
    let fb :=
      match alu.flashcard with
      | some ((k, v) :: _) => (k, v)
      | _ => (alu.front.getD "", alu.back.getD "")
    some (.flashcard baseId fb.1 fb.2 alu.hint)
  else
    none

/-- Function `mapBackendTopic` from `api.ts`, with `Date.now()` passed in as
`now` for the derived `stuck` flag. -/
def mapBackendTopic (now : Int) (item : BackendTopicItem) (index : Nat) : Topic :=
  let stuck := isStuckGenerating now item
  { id := item.node_id
    title := item.title.getD "Untitled"
    emoji := item.icon.getD (pickEmoji index)
    color := pickColor index
    status := if isReadyStatus item.status then .ready else .generating
    depth := .intermediate
    cardCount := item.card_count.getD 0
    cards := []
    stuck := stuck }

/-! ### Backend gateway (`api.ts`) -/

/-- Outcome of one network call: a response arriving after `delayMs`
whose JSON body parses (`some`) or does not (`none`), or a
transport-level failure after `delayMs`. -/
inductive NetOutcome (ρ : Type) where
  | respond (delayMs : Nat) (body : Option ρ)
  | netFail (delayMs : Nat)
deriving DecidableEq, Repr

/-- Default timeout of `fetchWithTimeout` (15 000 ms). -/
def FETCH_TIMEOUT_MS : Nat := 15000

/-- Function `fetchWithTimeout`: `Promise.race` of the fetch against a timer
that rejects with `Request timed out` after `timeoutMs`.  The fetch
settles first exactly when its delay is below the bound. -/
def fetchWithTimeout (timeoutMs : Nat) (net : NetOutcome ρ) :
    Except String (Option ρ) :=
  match net with
  | .respond d body =>
    if d < timeoutMs then .ok body else .error "Request timed out"
  | .netFail d =>
    if d < timeoutMs then .error "Network request failed"
    else .error "Request timed out"

/-- Shape of a `/feed` topic-list response: a bare array, or an object
consulted under the aliases `topics`, `nodes`, `items`, `feed`. -/
inductive TopicsPayload where
  | arr (items : List BackendTopicItem)
  | obj (topics nodes items feed : Option (List BackendTopicItem))
deriving DecidableEq, Repr

/-- Expression `Array.isArray(data) ? data : data.topics ?? data.nodes ??
data.items ?? data.feed ?? []`. -/
def extractTopicItems (data : TopicsPayload) : List BackendTopicItem :=
  match data with
  | .arr l => l
  | .obj topics nodes items feed =>
    ((((topics.orElse fun _ => nodes).orElse fun _ => items).orElse
      fun _ => feed)).getD []

/-- Shape of a `/feed?node_id=` card-list response: a bare array, or
an object consulted under the aliases `cards`, `alus`, `items`. -/
inductive CardsPayload where
  | arr (alus : List BackendALU)
  | obj (cards alus items : Option (List BackendALU))
deriving DecidableEq, Repr

/-- Expression `Array.isArray(data) ? data : data.cards ?? data.alus ??
data.items ?? []`. -/
def extractALUs (data : CardsPayload) : List BackendALU :=
  match data with
  | .arr l => l
  | .obj cards alus items =>
    (((cards.orElse fun _ => alus).orElse fun _ => items)).getD []

/-- Function `api.getTopics`: fetch the feed with the bounded timeout; on
success map each record through `mapBackendTopic` (JS `Array.map`
passes the position index as second argument); every caught error
(timeout, transport, JSON parse) degrades to `[]`. -/
def getTopics (now : Int) (net : NetOutcome TopicsPayload) : List Topic :=
  match fetchWithTimeout FETCH_TIMEOUT_MS net with
  | .ok (some data) =>
    (extractTopicItems data).mapIdx fun i item => mapBackendTopic now item i
  | .ok none => []
  | .error _ => []

/-- Expression `alus.map(mapALUToCard).filter(c => c !== null)`. -/
def mapCards (alus : List BackendALU) : List Card :=
  (alus.map mapALUToCard).filterMap id

/-- Function `api.getCards`: fetch the cards of one topic with the bounded timeout;
drop records the normalizer rejects; every caught error degrades
to `[]`. -/
def getCards (net : NetOutcome CardsPayload) : List Card :=
  match fetchWithTimeout FETCH_TIMEOUT_MS net with
  | .ok (some data) => mapCards (extractALUs data)
  | .ok none => []
  | .error _ => []

/-- Result of a write operation: the parsed response body, or the
empty object `{}` returned from the catch handler. -/
inductive WriteResult (ρ : Type) where
  | body (data : ρ)
  | emptyObj
deriving DecidableEq, Repr

structure LearnRequest where
  user_id : String
  alu_id : String
  node_id : String
deriving DecidableEq, Repr

/-- Function `api.markLearnt`: POST `/learn`; on any caught failure return
`{}`.  The pair also records the request body sent. -/
def markLearnt (aluId nodeId : String) (net : NetOutcome ρ) :
    LearnRequest × WriteResult ρ :=
  ({ user_id := USER_ID, alu_id := aluId, node_id := nodeId },
   match fetchWithTimeout FETCH_TIMEOUT_MS net with
   | .ok (some data) => .body data
   | .ok none => .emptyObj
   | .error _ => .emptyObj)

structure DeleteRequest where
  user_id : String
  node_id : String
deriving DecidableEq, Repr

/-- Function `api.deleteTopic`: POST `/delete`; on any caught failure return
`{}`. -/
def deleteTopic (nodeId : String) (net : NetOutcome ρ) :
    DeleteRequest × WriteResult ρ :=
  ({ user_id := USER_ID, node_id := nodeId },
   match fetchWithTimeout FETCH_TIMEOUT_MS net with
   | .ok (some data) => .body data
   | .ok none => .emptyObj
   | .error _ => .emptyObj)

structure GenerateRequest where
  user_id : String
  node_id : String
  title : String
  raw_text : String
deriving DecidableEq, Repr

structure GenerateResult where
  node_id : String
deriving DecidableEq, Repr

/-- Function `api.generateTopic`: choose the id (given `nodeId`, or the
synthetic `node-<timestamp>`), dispatch the POST detached (its
response is only logged — the outcome `net` plays no part in the
returned value), and resolve immediately with `{ node_id: id }`.
The pair also records the request body sent
(`raw_text` falls back to `Tell me about <title>` when empty). -/
def generateTopic (title : String) (rawText : String)
    (nodeId : Option String) (now : Int) (_net : NetOutcome ρ) :
    GenerateResult × GenerateRequest :=
  let id := nodeId.getD ("node-" ++ toString now)
  ({ node_id := id },
   { user_id := USER_ID, node_id := id, title := title,
     raw_text := if rawText = "" then "Tell me about " ++ title else rawText })

/-- Function `api.pollTopicStatus`: status of the topic with the given id in a
fresh `getTopics` fetch, or `generating` when absent. -/
def pollTopicStatus (now : Int) (nodeId : String)
    (net : NetOutcome TopicsPayload) : TopicStatus :=
  let topics := getTopics now net
  match topics.find? fun t => t.id == nodeId with
  | some t => t.status
  | none => .generating

/-! ### Generation orchestrator polling loop (`App` component) -/

/-- Published React state relevant to a poll tick. -/
structure AppState where
  topics : List Topic
  activeTopic : Option Topic
  generatingTopicId : Option String
deriving DecidableEq, Repr

/-- Hard polling deadline of `handleGenerate` / `handleRetryTopic`
(5 minutes). -/
def MAX_POLL_MS : Int := 5 * 60 * 1000

/-- Outcome of one scheduled `poll` invocation: the loop terminated
after publishing state, or it left state as it was and rescheduled
itself after `nextDelayMs`. -/
inductive TickResult where
  | done (s : AppState)
  | again (s : AppState) (nextDelayMs : Nat)
deriving DecidableEq, Repr

/-- One tick of the `poll` closure in `handleGenerate` /
`handleRetryTopic`, for the loop that captured `nodeId` and
`startTime`.  `statusNet` is the `pollTopicStatus` fetch outcome and
`refreshNet` the follow-up `getTopics` refresh outcome.  Past the
hard deadline, or on observing `ready`, the tick publishes: it
replaces the topic list with the refresh result, switches the active
topic to the found entry (leaving it unchanged when absent), and
clears `generatingTopicId`; otherwise it reschedules (4 s while
elapsed time is under 2 minutes, 8 s after). -/
def pollTick (nodeId : String) (startTime now : Int)
    (statusNet refreshNet : NetOutcome TopicsPayload)
    (s : AppState) : TickResult :=
  let elapsed := now - startTime
  if elapsed > MAX_POLL_MS then
    let refreshed := getTopics now refreshNet
    let found := refreshed.find? fun t => t.id == nodeId
    .done { topics := refreshed
            activeTopic := match found with
              | some f => some f
              | none => s.activeTopic
            generatingTopicId := none }
  else
    match pollTopicStatus now nodeId statusNet with
    | .ready =>
      let refreshed := getTopics now refreshNet
      let readyTopic := refreshed.find? fun t => t.id == nodeId
      .done { topics := refreshed
              activeTopic := match readyTopic with
                | some f => some f
                | none => s.activeTopic
              generatingTopicId := none }
    | .generating =>
      .again s (if elapsed < 120000 then 4000 else 8000)

/-! ### Claims -/

/-- Claim C1: a backend status string is classified ready by
`isReadyStatus` exactly when its lowercased, whitespace-trimmed form
is one of `ready`, `completed`, `done`, `complete`, `finished`,
`images_pending`; an absent status is never ready. -/
theorem c1_isReadyStatus_synonyms (s : String) :
    (isReadyStatus (some s) = true ↔
      s.toLower.trim ∈
        ["ready", "completed", "done", "complete", "finished",
         "images_pending"]) ∧
    isReadyStatus none = false := by
  refine ⟨?_, rfl⟩
  by_cases h : s = ""
  · subst h
    have h1 : "".toLower = "" := by simp [String.toLower, String.map_eq]
    have h2 : "".trim = "" := by
      simp [String.trim, Substring.trim, String.toSubstring,
        Substring.takeWhileAux, Substring.takeRightWhileAux,
        Substring.toString, String.endPos, String.utf8ByteSize,
        String.extract]
    simp [isReadyStatus, h1, h2]
  · simp [isReadyStatus, h]

/-- Claim C2: `isStuckGenerating` holds exactly when the status is not
ready, the card count (defaulting to 0 when absent) is zero, a
creation timestamp is present, and its wall-clock age at `now`
exceeds 10 minutes; in particular a record with no timestamp is never
stuck, and negating any conjunct makes the result false. -/
theorem c2_isStuckGenerating_iff (now : Int) (item : BackendTopicItem) :
    isStuckGenerating now item = true ↔
      (isReadyStatus item.status = false ∧
       item.card_count.getD 0 = 0 ∧
       ∃ c, item.created_at = some c ∧ now - c > 10 * 60 * 1000) := by
  unfold isStuckGenerating
  split_ifs with hr hc
  · simp [hr]
  · have hne : item.card_count.getD 0 ≠ 0 := by omega
    simp [hne]
  · have hc0 : item.card_count.getD 0 = 0 := by omega
    rw [Bool.not_eq_true] at hr
    cases hca : item.created_at with
    | none => simp [hr, hc0, hca]
    | some c => simp [hr, hc0, hca]

/-- Helper: a transport failure makes `fetchWithTimeout` return an
error whichever side of the bound its delay falls on. -/
theorem fetchWithTimeout_netFail (timeoutMs e : Nat) :
    ∃ msg, fetchWithTimeout timeoutMs (.netFail e : NetOutcome ρ) =
      .error msg := by
  simp only [fetchWithTimeout]
  split <;> exact ⟨_, rfl⟩

/-- Helper: a response slower than the bound loses the race to the
rejection timer. -/
theorem fetchWithTimeout_late (timeoutMs d : Nat) (body : Option ρ)
    (h : timeoutMs ≤ d) :
    fetchWithTimeout timeoutMs (.respond d body : NetOutcome ρ) =
      .error "Request timed out" := by
  simp only [fetchWithTimeout]
  rw [if_neg (Nat.not_lt.mpr h)]

/-- Claim C3: every gateway operation applies the 15 s bound of
`fetchWithTimeout`, and on timeout (response delay at or past the
bound) or transport failure the reads `getTopics` / `getCards`
resolve to `[]` while the writes `markLearnt` / `deleteTopic` resolve
to the empty object; none of them propagates the error (each is a
total function into its plain result type). -/
theorem c3_gateway_degrades (now : Int) (d e : Nat)
    (tbody : Option TopicsPayload) (cbody : Option CardsPayload)
    (ρ : Type) (wbody : Option ρ) (aluId nodeId nodeId2 : String)
    (h : FETCH_TIMEOUT_MS ≤ d) :
    getTopics now (.respond d tbody) = [] ∧
    getCards (.respond d cbody) = [] ∧
    (markLearnt aluId nodeId (.respond d wbody)).2 = .emptyObj ∧
    (deleteTopic nodeId2 (.respond d wbody)).2 = .emptyObj ∧
    getTopics now (.netFail e) = [] ∧
    getCards (.netFail e) = [] ∧
    (markLearnt aluId nodeId (.netFail e : NetOutcome ρ)).2 = .emptyObj ∧
    (deleteTopic nodeId2 (.netFail e : NetOutcome ρ)).2 = .emptyObj := by
  obtain ⟨m1, hm1⟩ :=
    fetchWithTimeout_netFail (ρ := TopicsPayload) FETCH_TIMEOUT_MS e
  obtain ⟨m2, hm2⟩ :=
    fetchWithTimeout_netFail (ρ := CardsPayload) FETCH_TIMEOUT_MS e
  obtain ⟨m3, hm3⟩ := fetchWithTimeout_netFail (ρ := ρ) FETCH_TIMEOUT_MS e
  refine ⟨?_, ?_, ?_, ?_, ?_, ?_, ?_, ?_⟩
  · simp [getTopics, fetchWithTimeout_late _ _ _ h]
  · simp [getCards, fetchWithTimeout_late _ _ _ h]
  · simp [markLearnt, fetchWithTimeout_late _ _ _ h]
  · simp [deleteTopic, fetchWithTimeout_late _ _ _ h]
  · simp [getTopics, hm1]
  · simp [getCards, hm2]
  · simp [markLearnt, hm3]
  · simp [deleteTopic, hm3]

/-- Witness for C3 at the concrete bound 15 000 ms. -/
theorem c3_gateway_degrades_witness :
    FETCH_TIMEOUT_MS ≤ 15000 ∧
    (getTopics 0 (.respond 15000 (some (.arr []))) = [] ∧
     getCards (.respond 15000 (some (.arr []))) = [] ∧
     (markLearnt "a1" "n1" (.respond 15000 (some ()))).2 = .emptyObj ∧
     (deleteTopic "n2" (.respond 15000 (some ()))).2 = .emptyObj ∧
     getTopics 0 (.netFail 0) = [] ∧
     getCards (.netFail 0) = [] ∧
     (markLearnt "a1" "n1" (.netFail 0 : NetOutcome Unit)).2 = .emptyObj ∧
     (deleteTopic "n2" (.netFail 0 : NetOutcome Unit)).2 = .emptyObj) :=
  ⟨by decide,
   c3_gateway_degrades 0 15000 0 (some (.arr [])) (some (.arr [])) Unit
     (some ()) "a1" "n1" "n2" (by decide)⟩

/-- Claim C4: a record whose discriminator is `quiz` maps to a quiz
card whose options are exactly the nested `quiz.choices` list in
order, each option id being its zero-based index rendered as a
string, and whose correct-option id is the stringified
`quiz.answer_index` (defaulting to `0` when absent). -/
theorem c4_quiz_options_positional (alu : BackendALU)
    (h : postTypeOf alu = some "quiz") :
    ∃ q ex,
      mapALUToCard alu = some (Card.quiz alu.alu_id q
        (((alu.quiz.getD BackendQuiz.empty).choices.getD []).enum.map
          fun p => QuizOption.mk (toString p.1) p.2)
        (toString ((alu.quiz.getD BackendQuiz.empty).answer_index.getD 0))
        ex) := by
  refine ⟨(alu.quiz.getD BackendQuiz.empty).question.getD
      (alu.question.getD ""),
    (alu.quiz.getD BackendQuiz.empty).explanation.getD
      (alu.explanation.getD ""), ?_⟩
  simp [mapALUToCard, h, List.mapIdx_eq_enum_map, Function.uncurry]

/-- Sample quiz record from the spec scenario. -/
def sampleQuizALU : BackendALU :=
  { alu_id := "alu-q", post_type := some "quiz", card_type := none,
    image_url := none, caption := none, hook := none, credit := none,
    micro_explanation := none,
    quiz := some { question := some "Q?", choices := some ["A", "B", "C"],
                   answer_index := some 1, explanation := some "E" },
    question := none, explanation := none, flashcard := none,
    front := none, back := none, hint := none }

/-- Witness for C4 at the spec scenario record. -/
theorem c4_quiz_options_positional_witness :
    postTypeOf sampleQuizALU = some "quiz" ∧
    ∃ q ex,
      mapALUToCard sampleQuizALU = some (Card.quiz sampleQuizALU.alu_id q
        (((sampleQuizALU.quiz.getD BackendQuiz.empty).choices.getD
          []).enum.map fun p => QuizOption.mk (toString p.1) p.2)
        (toString
          ((sampleQuizALU.quiz.getD BackendQuiz.empty).answer_index.getD 0))
        ex) :=
  ⟨rfl, c4_quiz_options_positional sampleQuizALU rfl⟩

/-- Claim C5: a record whose discriminator is `flashcard` takes front
and back from the first entry of the `flashcard` mapping (key becomes
front, value becomes back), ignoring further entries; with the
mapping absent it falls back to the explicit fields, defaulting to
empty strings. -/
theorem c5_flashcard_first_entry (alu : BackendALU)
    (h : postTypeOf alu = some "flashcard") :
    (∀ k v rest, alu.flashcard = some ((k, v) :: rest) →
      mapALUToCard alu =
        some (Card.flashcard alu.alu_id k v alu.hint)) ∧
    (alu.flashcard = none →
      mapALUToCard alu =
        some (Card.flashcard alu.alu_id (alu.front.getD "")
          (alu.back.getD "") alu.hint)) := by
  constructor
  · intro k v rest hf
    simp [mapALUToCard, h, hf]
  · intro hf
    simp [mapALUToCard, h, hf]

/-- Sample flashcard record from the spec scenario. -/
def sampleFlashALU : BackendALU :=
  { alu_id := "alu-f", post_type := some "flashcard", card_type := none,
    image_url := none, caption := none, hook := none, credit := none,
    micro_explanation := none, quiz := none,
    question := none, explanation := none,
    flashcard := some [("What is X?", "X is Y")],
    front := none, back := none, hint := none }

/-- Witness for C5 at the spec scenario record. -/
theorem c5_flashcard_first_entry_witness :
    postTypeOf sampleFlashALU = some "flashcard" ∧
    mapALUToCard sampleFlashALU =
      some (Card.flashcard "alu-f" "What is X?" "X is Y" none) :=
  ⟨rfl,
   (c5_flashcard_first_entry sampleFlashALU rfl).1 "What is X?" "X is Y" []
     rfl⟩

/-- Claim C6: an image record resolves its caption from the explicit
field when present, otherwise from the `micro_explanation` fragments
joined with single spaces, otherwise to the empty string. -/
theorem c6_image_caption_fallback (alu : BackendALU)
    (h : postTypeOf alu = some "image") :
    ∃ cap,
      mapALUToCard alu = some (Card.image alu.alu_id
        (alu.image_url.getD "") cap (alu.hook.getD "") alu.credit) ∧
      (∀ s, alu.caption = some s → cap = s) ∧
      (∀ l, alu.caption = none → alu.micro_explanation = some l →
        cap = String.intercalate " " l) ∧
      (alu.caption = none → alu.micro_explanation = none → cap = "") := by
  refine ⟨alu.caption.getD
      (match alu.micro_explanation with
       | some fragments => String.intercalate " " fragments
       | none => ""), ?_, ?_, ?_, ?_⟩
  · simp [mapALUToCard, h]
  · intro s hs
    simp [hs]
  · intro l hc hm
    simp [hc, hm]
  · intro hc hm
    simp [hc, hm]

/-- Sample image record exercising the space-joined fallback. -/
def sampleImageALU : BackendALU :=
  { alu_id := "alu-i", post_type := some "image", card_type := none,
    image_url := some "https://img", caption := none, hook := some "H",
    credit := none, micro_explanation := some ["part one", "part two"],
    quiz := none, question := none, explanation := none,
    flashcard := none, front := none, back := none, hint := none }

/-- Witness for C6 at a record with no explicit caption and two
explanation fragments. -/
theorem c6_image_caption_fallback_witness :
    postTypeOf sampleImageALU = some "image" ∧
    ∃ cap,
      mapALUToCard sampleImageALU = some (Card.image
        sampleImageALU.alu_id (sampleImageALU.image_url.getD "") cap
        (sampleImageALU.hook.getD "") sampleImageALU.credit) ∧
      (∀ s, sampleImageALU.caption = some s → cap = s) ∧
      (∀ l, sampleImageALU.caption = none →
        sampleImageALU.micro_explanation = some l →
        cap = String.intercalate " " l) ∧
      (sampleImageALU.caption = none →
        sampleImageALU.micro_explanation = none → cap = "") :=
  ⟨rfl, c6_image_caption_fallback sampleImageALU rfl⟩

/-- Claim C7: a record whose discriminator matches none of the three
known card kinds maps to `none` (dropped with a diagnostic, never an
error), and the card batch drops exactly such records while mapping
the rest: both in the bare mapping pipeline and through `getCards`. -/
theorem c7_unknown_discriminator_dropped (alu : BackendALU)
    (h : postTypeOf alu ≠ some "image" ∧ postTypeOf alu ≠ some "quiz" ∧
      postTypeOf alu ≠ some "flashcard") :
    mapALUToCard alu = none ∧
    (∀ xs ys, mapCards (xs ++ alu :: ys) = mapCards xs ++ mapCards ys) ∧
    (∀ xs ys, getCards (.respond 0 (some (.arr (xs ++ alu :: ys)))) =
      mapCards xs ++ mapCards ys) := by
  obtain ⟨h1, h2, h3⟩ := h
  have hnone : mapALUToCard alu = none := by
    simp only [mapALUToCard]
    rw [if_neg h1, if_neg h2, if_neg h3]
  have hsplit : ∀ xs ys : List BackendALU,
      mapCards (xs ++ alu :: ys) = mapCards xs ++ mapCards ys := by
    intro xs ys
    simp [mapCards, hnone]
  refine ⟨hnone, hsplit, ?_⟩
  intro xs ys
  rw [show getCards (.respond 0 (some (.arr (xs ++ alu :: ys)))) =
      mapCards (xs ++ alu :: ys) from by
    simp [getCards, fetchWithTimeout, FETCH_TIMEOUT_MS, extractALUs]]
  exact hsplit xs ys

/-- Sample record with an unrecognized discriminator. -/
def sampleVideoALU : BackendALU :=
  { alu_id := "alu-v", post_type := some "video", card_type := none,
    image_url := none, caption := none, hook := none, credit := none,
    micro_explanation := none, quiz := none, question := none,
    explanation := none, flashcard := none, front := none, back := none,
    hint := none }

/-- Witness for C7: a `video` record is dropped and its neighbours in
the batch survive. -/
theorem c7_unknown_discriminator_dropped_witness :
    (postTypeOf sampleVideoALU ≠ some "image" ∧
     postTypeOf sampleVideoALU ≠ some "quiz" ∧
     postTypeOf sampleVideoALU ≠ some "flashcard") ∧
    mapALUToCard sampleVideoALU = none ∧
    mapCards ([sampleQuizALU] ++ sampleVideoALU :: [sampleFlashALU]) =
      mapCards [sampleQuizALU] ++ mapCards [sampleFlashALU] := by
  have h : postTypeOf sampleVideoALU ≠ some "image" ∧
      postTypeOf sampleVideoALU ≠ some "quiz" ∧
      postTypeOf sampleVideoALU ≠ some "flashcard" :=
    ⟨by decide, by decide, by decide⟩
  exact ⟨h, (c7_unknown_discriminator_dropped sampleVideoALU h).1,
    (c7_unknown_discriminator_dropped sampleVideoALU h).2.1
      [sampleQuizALU] [sampleFlashALU]⟩

/-- Claim C8: `generateTopic` resolves to the given `nodeId`
(or the synthetic `node-<timestamp>` when none was given) and its
returned value — indeed the whole result, request body included — is
identical whatever the detached HTTP request does; being a total
function, it never rejects. -/
theorem c8_generateTopic_fire_and_forget (title rawText : String)
    (nodeId : Option String) (now : Int) (ρ ρ2 : Type)
    (net : NetOutcome ρ) (net2 : NetOutcome ρ2) :
    (generateTopic title rawText nodeId now net).1.node_id =
      nodeId.getD ("node-" ++ toString now) ∧
    generateTopic title rawText nodeId now net =
      generateTopic title rawText nodeId now net2 :=
  ⟨rfl, rfl⟩

/-- Placeholder topic for a newer generation attempt `node-2` (as
built by `handleRetryTopic` / `handleGenerate`). -/
def newAttemptPlaceholder : Topic :=
  { id := "node-2", title := "Creatine", emoji := "🧠",
    color := "#6C63FF", status := .generating, depth := .beginner,
    cardCount := 0, cards := [], stuck := false }

/-- App state after a retry: the newer attempt `node-2` is the
authoritative generation, the superseded loop for `node-1` is still
scheduled. -/
def stateAfterRetry : AppState :=
  { topics := [newAttemptPlaceholder],
    activeTopic := some newAttemptPlaceholder,
    generatingTopicId := some "node-2" }

/-- A feed fetch that resolves promptly with an empty list (the old
topic was deleted). -/
def emptyFeed : NetOutcome TopicsPayload :=
  .respond 0 (some (.arr []))

/-- Claim C9 (code-bug demonstration): a tick of the superseded
polling loop for `node-1`, executing past its hard deadline while the
newer attempt `node-2` is the authoritative generation, performs no
authority check: it publishes — replacing the topic list with its own
refresh result and clearing `generatingTopicId` — rather than
no-opping, so the stale loop overwrites the newer
generation attempt. -/
theorem c9_stale_tick_publishes_without_guard :
    pollTick "node-1" 0 300001 emptyFeed emptyFeed stateAfterRetry =
      TickResult.done (AppState.mk [] (some newAttemptPlaceholder) none) ∧
    pollTick "node-1" 0 300001 emptyFeed emptyFeed stateAfterRetry ≠
      TickResult.again stateAfterRetry 8000 ∧
    TickResult.done (AppState.mk [] (some newAttemptPlaceholder) none) ≠
      TickResult.done stateAfterRetry := by
  refine ⟨?_, ?_, ?_⟩ <;> decide

/-- Claim C10: every topic built by `mapBackendTopic` — hence every
topic returned by `getTopics` — has depth `intermediate` and an empty
card list, whatever the backend record said. -/
theorem c10_mapBackendTopic_depth_fixed (now : Int)
    (item : BackendTopicItem) (i : Nat)
    (net : NetOutcome TopicsPayload) :
    (mapBackendTopic now item i).depth = Depth.intermediate ∧
    (mapBackendTopic now item i).cards = [] ∧
    (getTopics now net).all
      (fun t => decide (t.depth = Depth.intermediate) &&
        decide (t.cards = [])) = true := by
  refine ⟨rfl, rfl, ?_⟩
  rw [List.all_eq_true]
  intro t ht
  unfold getTopics at ht
  cases hf : fetchWithTimeout FETCH_TIMEOUT_MS net with
  | error msg =>
    rw [hf] at ht
    simp at ht
  | ok body =>
    cases body with
    | none =>
      rw [hf] at ht
      simp at ht
    | some data =>
      rw [hf] at ht
      simp only [List.mapIdx_eq_enum_map] at ht
      obtain ⟨⟨j, it⟩, _, rfl⟩ := List.mem_map.mp ht
      rfl

end LoopMind
